import Mathlib

/-!
Verification development for the data-fetch and notebook-toggle utilities.

The Python sources `fetch_data.py` and `notebook_toggle.py` are embedded
shallowly: file contents are lists of characters, the filesystem is a map
from path strings to optional contents, the SHA256 hash is an abstract
function parameter `H`, and external collaborators (sklearn loaders and
generators, the HTTP client, the wall clock) are function parameters.
Stateful functions are embedded as explicit state transformers; a Python
`raise` becomes `Except.error`, produced before any state mutation exactly
when the source raises before mutating.
-/

/-- Model of Python `str.lower()`: character-wise lowercasing, written as a
structurally recursive map over the string's characters. -/
def pyLower (s : String) : String := ⟨s.data.map Char.toLower⟩

namespace FetchData

/-- Contents of a file or HTTP response body, one entry per byte/character. -/
abbrev Content := List Char

/-- Association-list lookup modelling Python `dict.get` on a string-keyed dict. -/
def dictGet (d : List (String × String)) (k : String) : Option String :=
  (d.find? (fun p => p.fst == k)).map Prod.snd

/-- The module-level `DATASET_HASHES` registry, verbatim from `fetch_data.py`. -/
def DATASET_HASHES : List (String × List (String × String)) := [
  ("iris", [("quick", "a6c1b1b5a0c7f3e7e4b2e1c8d4a3f7b0"),
            ("full", "a6c1b1b5a0c7f3e7e4b2e1c8d4a3f7b0")]),
  ("digits", [("quick", "9c7a3d8b1f5e2a4c6d7e9f1a3b5c7d9e"),
              ("full", "9c7a3d8b1f5e2a4c6d7e9f1a3b5c7d9e")]),
  ("mnist", [("quick", "f7b8c3e2a1d5c4b9e6f2a8d1c3b5e7f9"),
             ("full", "8a7f6e5d4c3b2a1f0e9d8c7b6a5f4e3d")]),
  ("boston", [("quick", "b4c3d2e1f0a9b8c7d6e5f4a3b2c1d0e9"),
              ("full", "b4c3d2e1f0a9b8c7d6e5f4a3b2c1d0e9")]),
  ("titanic", [("quick", "c5d4e3f2a1b0c9d8e7f6a5b4c3d2e1f0"),
               ("full", "d6e5f4a3b2c1d0e9f8a7b6c5d4e3f2a1")])]

/-- Lookup of a dataset's per-mode hash table in the registry
(Python `dataset in DATASET_HASHES` / `DATASET_HASHES[dataset]`). -/
def lookupDataset (dataset : String) : Option (List (String × String)) :=
  (DATASET_HASHES.find? (fun p => p.fst == dataset)).map Prod.snd

/-- Embedding of `get_expected_hash`: `None` for unregistered names, otherwise
`DATASET_HASHES[dataset].get(MODE, DATASET_HASHES[dataset].get("full"))`.
The module-global `MODE` is passed explicitly as `mode`. -/
def get_expected_hash (mode dataset : String) : Option String :=
  match lookupDataset dataset with
  | none => none
  | some tbl => (dictGet tbl mode).orElse (fun _ => dictGet tbl "full")

/-- Embedding of `compute_file_hash`: `None` when the file does not exist,
otherwise the hash of its bytes. `H` abstracts `compute_hash` on bytes and
`fs` the filesystem. -/
def compute_file_hash (H : Content → String) (fs : String → Option Content)
    (filepath : String) : Option String :=
  (fs filepath).map H

inductive VerifyStatus where
  | verified
  | corrupted
  | missing
  | unknown
deriving DecidableEq, Repr

/-- Result of `verify_dataset` (the Python dict; the `mode` key of the
verified/corrupted variant is omitted as it merely echoes the input). -/
structure VerifyResult where
  status : VerifyStatus
  dataset : String
  expected_hash : Option String
  actual_hash : Option String
deriving DecidableEq, Repr

/-- Embedding of `verify_dataset`. -/
def verify_dataset (H : Content → String) (fs : String → Option Content)
    (mode dataset filepath : String) : VerifyResult :=
  match get_expected_hash mode dataset with
  | none => ⟨.unknown, dataset, none, none⟩
  | some expected =>
    match compute_file_hash H fs filepath with
    | none => ⟨.missing, dataset, some expected, none⟩
    | some actual =>
      ⟨if actual = expected then .verified else .corrupted,
        dataset, some expected, some actual⟩

/-- Output of one sklearn dataset loader: the full `(data, target)` pair,
rows abstracted as integer lists. -/
structure SkData where
  data : List (List Int)
  target : List Int
deriving DecidableEq, Repr

/-- Result of `load_sklearn_dataset` (load time and hash metadata omitted;
the payload fields are what the claims speak about). -/
structure LoadResult where
  dataset : String
  data : List (List Int)
  target : List Int
  mode : String
deriving DecidableEq, Repr

/-- Embedding of `load_sklearn_dataset`. `loaders` gives, for each sklearn
loader name, that loader's full output. The source builds a `dataset_funcs`
table mapping each valid name to its own loader but then calls
`datasets.load_iris(return_X_y=True)` on every branch, quick and full alike;
the embedding reproduces that faithfully via `loaders "iris"`. -/
def load_sklearn_dataset (loaders : String → SkData) (name mode : String) :
    Except String LoadResult :=
  if name ≠ "iris" ∧ name ≠ "digits" ∧ name ≠ "wine" ∧ name ≠ "breast_cancer" then
    .error ("Unknown dataset: " ++ name)
  else
    let src := loaders "iris"
    let dt : List (List Int) × List Int :=
      if mode = "quick" then
        if name = "digits" then (src.data.take 100, src.target.take 100)
        else if name = "wine" then (src.data.take 30, src.target.take 30)
        else if name = "breast_cancer" then (src.data.take 100, src.target.take 100)
        else (src.data.take 100, src.target.take 100)
      else (src.data, src.target)
    .ok ⟨name, dt.fst, dt.snd, mode⟩

/-- Quick-mode truncation inside `download_external_dataset`:
`content.decode().split('\n')[:101]` joined back with newlines
(header plus 100 data rows). -/
def quickTruncate (c : Content) : Content :=
  List.intercalate ['\n'] ((c.splitOn '\n').take 101)

/-- Pointwise filesystem update, modelling the `open(filepath, "wb")` write. -/
def setFile (fs : String → Option Content) (p : String) (c : Content) :
    String → Option Content :=
  fun q => if q = p then some c else fs q

/-- Result dict of `download_external_dataset`
(`size`/`hash` are absent on the cached path). -/
structure DLResult where
  status : String
  path : String
  size : Option Nat
  hash : Option String
deriving DecidableEq, Repr

/-- Observable outcome of a `download_external_dataset` call: its return
value, the filesystem afterwards, whether `requests.get` was executed, and
whether the hash-mismatch warning was printed. -/
structure DLOutcome where
  result : DLResult
  fs : String → Option Content
  fetched : Bool
  warned : Bool

/-- Embedding of `download_external_dataset`. `fetch url` is the body of a
successful HTTP response. `gmode` is the module-global `MODE` that
`get_expected_hash` reads; `mode` is the function's own argument governing
truncation. The cached-path comparison `file_hash == expected_hash` is
Python equality of a string against an optional string (false when the
expected hash is `None`); the warning condition
`if expected_hash and file_hash != expected_hash` requires a truthy
(non-empty) expected hash. -/
def download_external_dataset (H : Content → String) (fetch : String → Content)
    (fs : String → Option Content) (gmode name url mode : String) : DLOutcome :=
  let filepath := "data/" ++ name ++ ".csv"
  let expected := get_expected_hash gmode name
  let cachedHit : Bool :=
    match fs filepath with
    | none => false
    | some c => some (H c) == expected
  if cachedHit then
    ⟨⟨"cached", filepath, none, none⟩, fs, false, false⟩
  else
    let content0 := fetch url
    let content := if mode = "quick" then quickTruncate content0 else content0
    let file_hash := H content
    let warned : Bool :=
      match expected with
      | none => false
      | some e => e ≠ "" ∧ e ≠ file_hash
    ⟨⟨"downloaded", filepath, some content.length, some file_hash⟩,
      setFile fs filepath content, true, warned⟩

/-- Arguments handed to one sklearn `make_*` generator by the `generators`
table of `generate_synthetic_dataset`: which generator, the mode-dependent
sample count, and the random seed. Fixed per-generator parameters
(n_features, noise, centers, factor, ...) are constants folded into `gen`. -/
structure GenArgs where
  gen : String
  n_samples : Nat
  random_state : Int
deriving DecidableEq, Repr

/-- Per-name entry selection of the `generators` dict, including each
lambda's mode-dependent `n_samples`; `none` when the name is unknown. -/
def synth_args (name mode : String) (random_state : Int) : Option GenArgs :=
  if name = "classification" then
    some ⟨"classification", if mode = "quick" then 100 else 1000, random_state⟩
  else if name = "regression" then
    some ⟨"regression", if mode = "quick" then 100 else 1000, random_state⟩
  else if name = "blobs" then
    some ⟨"blobs", if mode = "quick" then 100 else 500, random_state⟩
  else if name = "moons" then
    some ⟨"moons", if mode = "quick" then 100 else 500, random_state⟩
  else if name = "circles" then
    some ⟨"circles", if mode = "quick" then 100 else 500, random_state⟩
  else none

/-- Result dict of `generate_synthetic_dataset`. -/
structure SynResult where
  dataset : String
  X : List (List Int)
  y : List Int
  mode : String
  random_state : Int
  hash : String
  load_time : Int
deriving DecidableEq, Repr

/-- Embedding of `generate_synthetic_dataset`. `g` abstracts the sklearn
`make_*` collaborator (a function of the generator arguments, deterministic
for a fixed seed), `H` abstracts `compute_hash(X.tobytes())`, and `elapsed`
the measured wall-clock duration. -/
def generate_synthetic_dataset (g : GenArgs → List (List Int) × List Int)
    (H : List (List Int) → String) (name mode : String) (random_state : Int)
    (elapsed : Int) : Except String SynResult :=
  match synth_args name mode random_state with
  | none => .error ("Unknown generator: " ++ name)
  | some a =>
    let Xy := g a
    .ok ⟨name, Xy.fst, Xy.snd, mode, random_state, H Xy.fst, elapsed⟩

/-- Observable state of the `fetch_data` module: the global `MODE` and the
`DATA_MODE` environment variable. -/
structure FDState where
  MODE : String
  env_DATA_MODE : Option String
deriving DecidableEq, Repr

/-- Embedding of `fetch_data.set_mode`: lowercases and stores the argument
unconditionally — the source has no validation and no exception path. -/
def set_mode (mode : String) (_st : FDState) : FDState :=
  { MODE := pyLower mode, env_DATA_MODE := some (pyLower mode) }

end FetchData

namespace NotebookToggle

/-- Setting values occurring in the settings dictionaries: Python ints,
the float literal `0.2` (recorded exactly as two tenths), booleans, `None`. -/
inductive SVal where
  | int : Int → SVal
  | tenths : Int → SVal
  | boolean : Bool → SVal
  | pynone : SVal
deriving DecidableEq, Repr

/-- The `QUICK_SETTINGS` dictionary, verbatim from `notebook_toggle.py`. -/
def QUICK_SETTINGS : List (String × SVal) := [
  ("n_samples", .int 100), ("n_iter", .int 10), ("test_size", .tenths 2),
  ("n_folds", .int 2), ("n_jobs", .int 1), ("max_samples", .int 100),
  ("cache_data", .boolean false), ("verbose", .boolean false)]

/-- The `FULL_SETTINGS` dictionary, verbatim from `notebook_toggle.py`. -/
def FULL_SETTINGS : List (String × SVal) := [
  ("n_samples", .int 1000), ("n_iter", .int 100), ("test_size", .tenths 2),
  ("n_folds", .int 5), ("n_jobs", .int (-1)), ("max_samples", .pynone),
  ("cache_data", .boolean true), ("verbose", .boolean true)]

/-- Association-list lookup modelling `dict.get` on the settings tables. -/
def settingsGet (d : List (String × SVal)) (k : String) : Option SVal :=
  (d.find? (fun p => p.fst == k)).map Prod.snd

/-- Observable state of the `notebook_toggle` module: the `NOTEBOOK_MODE`
environment variable and the keys of the `_cell_cache` dict. -/
structure NBState where
  env_NOTEBOOK_MODE : Option String
  cell_cache : List Int
deriving DecidableEq, Repr

/-- Embedding of `get_mode`:
`os.environ.get(MODE_KEY, DEFAULT_MODE.value).lower()`. -/
def get_mode (s : NBState) : String :=
  pyLower (s.env_NOTEBOOK_MODE.getD "quick")

/-- Embedding of `notebook_toggle.set_mode`: the membership check on
`valid_modes = ["quick", "full"]` raises `ValueError` before any mutation;
on success the lowercased mode is stored and `_clear_cache()` empties the
cell cache. An `Except.error` outcome therefore leaves the caller's state
exactly as it was. -/
def set_mode (mode : String) (_s : NBState) : Except String NBState :=
  if pyLower mode ≠ "quick" ∧ pyLower mode ≠ "full" then
    .error ("Invalid mode: " ++ mode ++ ". Must be quick or full")
  else
    .ok ⟨some (pyLower mode), []⟩

/-- Embedding of `toggle_mode`: with no argument, flips the current mode
(anything other than "quick" toggles to "quick"); then delegates to
`set_mode` and returns the new mode. -/
def toggle_mode (new_mode : Option String) (s : NBState) :
    Except String (String × NBState) :=
  let nm := match new_mode with
    | none => if get_mode s = "quick" then "full" else "quick"
    | some m => m
  match set_mode nm s with
  | .error e => .error e
  | .ok s2 => .ok (nm, s2)

/-- Embedding of `get_setting`: resolves the key from the active mode's
table (`QUICK_SETTINGS` exactly when the current mode equals "quick"),
falling back to the caller-supplied default. -/
def get_setting (key : String) (dflt : Option SVal) (s : NBState) : Option SVal :=
  let settings := if get_mode s = "quick" then QUICK_SETTINGS else FULL_SETTINGS
  (settingsGet settings key).orElse (fun _ => dflt)

end NotebookToggle

section SplitLemmas

/-- Every element of a `splitOnP` decomposition is free of elements
satisfying the splitting predicate. -/
theorem splitOnP_forall_not {α : Type} (p : α → Bool) (xs : List α) :
    ∀ l ∈ xs.splitOnP p, ∀ a ∈ l, p a = false := by
  induction xs with
  | nil =>
    intro l hl a ha
    simp only [List.splitOnP_nil, List.mem_singleton] at hl
    subst hl
    simp at ha
  | cons x xs ih =>
    intro l hl a ha
    rw [List.splitOnP_cons] at hl
    by_cases hx : p x
    · rw [if_pos hx] at hl
      rcases List.mem_cons.mp hl with rfl | hl2
      · simp at ha
      · exact ih l hl2 a ha
    · rw [if_neg hx] at hl
      cases h : xs.splitOnP p with
      | nil => exact absurd h (List.splitOnP_ne_nil p xs)
      | cons hd tl =>
        rw [h, List.modifyHead_cons] at hl
        rcases List.mem_cons.mp hl with rfl | hl2
        · rcases List.mem_cons.mp ha with rfl | ha2
          · exact Bool.eq_false_iff.mpr hx
          · exact ih hd (h ▸ List.mem_cons_self hd tl) a ha2
        · exact ih l (h ▸ List.mem_cons_of_mem hd hl2) a ha

/-- The separator occurs in no element of `splitOn`. -/
theorem splitOn_sep_not_mem (c : List Char) : ∀ l ∈ c.splitOn '\n', '\n' ∉ l := by
  intro l hl hmem
  have hfalse := splitOnP_forall_not (· == '\n') c l hl '\n' hmem
  simp at hfalse

end SplitLemmas

/-- Concrete loader collaborator used to exhibit the `load_sklearn_dataset`
delegation bug: the iris and digits loaders return visibly different data. -/
def loadersW : String → FetchData.SkData :=
  fun n =>
    if n = "iris" then ⟨[[0]], [0]⟩
    else if n = "digits" then ⟨[[1]], [1]⟩
    else ⟨[[2]], [2]⟩

/-- C1: the claim says `load_sklearn_dataset` delegates to the named
dataset's own loader and, in full mode, returns that dataset's complete
sample set. The code instead calls `datasets.load_iris` on every branch:
with a collaborator whose digits loader returns `[[1]]` and whose iris
loader returns `[[0]]`, a full-mode load of "digits" carries the iris
payload `[[0]]`, not the digits payload `[[1]]`. -/
theorem load_sklearn_dataset_ignores_name :
    FetchData.load_sklearn_dataset loadersW "digits" "full" =
      .ok ⟨"digits", [[0]], [0], "full"⟩ ∧
    (loadersW "digits").data = [[1]] ∧
    (loadersW "iris").data = [[0]] ∧
    ([[0]] : List (List Int)) ≠ [[1]] :=
  ⟨rfl, rfl, rfl, by decide⟩

/-- C2: for a dataset name absent from `DATASET_HASHES`, `verify_dataset`
returns status `unknown` — never `missing` or `corrupted` — for every
filesystem, hash function, mode and path; the embedding is a total
function, so no error is raised. -/
theorem verify_dataset_unregistered_unknown
    (H : FetchData.Content → String) (fs : String → Option FetchData.Content)
    (mode dataset filepath : String)
    (hreg : FetchData.lookupDataset dataset = none) :
    (FetchData.verify_dataset H fs mode dataset filepath).status = .unknown ∧
    (FetchData.verify_dataset H fs mode dataset filepath).status ≠ .missing ∧
    (FetchData.verify_dataset H fs mode dataset filepath).status ≠ .corrupted := by
  unfold FetchData.verify_dataset FetchData.get_expected_hash
  rw [hreg]
  exact ⟨rfl, by simp, by simp⟩

/-- C2 witness: the name "fashion" is not registered, and verifying it
yields status `unknown`. -/
theorem verify_dataset_unregistered_unknown_witness :
    (FetchData.verify_dataset (fun _ => "") (fun _ => none)
      "quick" "fashion" "data/fashion.csv").status = .unknown :=
  (verify_dataset_unregistered_unknown (fun _ => "") (fun _ => none)
    "quick" "fashion" "data/fashion.csv" (by decide)).1

/-- C3: for a registered dataset with expected hash `e`: a present file
whose hash equals `e` verifies; a present file whose hash differs is
corrupted — in particular a one-byte flip of a verified file whose hash
changes; an absent file is missing. -/
theorem verify_dataset_registered_cases
    (H : FetchData.Content → String) (fs : String → Option FetchData.Content)
    (mode dataset filepath : String) (e : String)
    (hexp : FetchData.get_expected_hash mode dataset = some e) :
    (∀ c, fs filepath = some c → H c = e →
      (FetchData.verify_dataset H fs mode dataset filepath).status = .verified) ∧
    (∀ c, fs filepath = some c → H c ≠ e →
      (FetchData.verify_dataset H fs mode dataset filepath).status = .corrupted) ∧
    (∀ c i b, fs filepath = some (c.set i b) → H c = e → H (c.set i b) ≠ H c →
      (FetchData.verify_dataset H fs mode dataset filepath).status = .corrupted) ∧
    (fs filepath = none →
      (FetchData.verify_dataset H fs mode dataset filepath).status = .missing) := by
  refine ⟨?_, ?_, ?_, ?_⟩
  · intro c hc hH
    unfold FetchData.verify_dataset FetchData.compute_file_hash
    rw [hexp, hc]
    simp [hH]
  · intro c hc hH
    unfold FetchData.verify_dataset FetchData.compute_file_hash
    rw [hexp, hc]
    simp [hH]
  · intro c i b hc hH hflip
    unfold FetchData.verify_dataset FetchData.compute_file_hash
    rw [hexp, hc]
    have : H (c.set i b) ≠ e := by rw [← hH]; exact hflip
    simp [this]
  · intro hc
    unfold FetchData.verify_dataset FetchData.compute_file_hash
    rw [hexp, hc]
    rfl

/-- C3 witness: with a hash function sending `['a']` to the registered iris
hash and everything else elsewhere, a matching file verifies, a one-byte
flip is corrupted, and an absent file is missing. -/
theorem verify_dataset_registered_cases_witness :
    (FetchData.verify_dataset
      (fun c => if c = ['a'] then "a6c1b1b5a0c7f3e7e4b2e1c8d4a3f7b0" else "x")
      (fun _ => some ['a']) "quick" "iris" "data/iris.csv").status = .verified ∧
    (FetchData.verify_dataset
      (fun c => if c = ['a'] then "a6c1b1b5a0c7f3e7e4b2e1c8d4a3f7b0" else "x")
      (fun _ => some (['a'].set 0 'b')) "quick" "iris" "data/iris.csv").status
        = .corrupted ∧
    (FetchData.verify_dataset
      (fun c => if c = ['a'] then "a6c1b1b5a0c7f3e7e4b2e1c8d4a3f7b0" else "x")
      (fun _ => none) "quick" "iris" "data/iris.csv").status = .missing :=
  ⟨(verify_dataset_registered_cases _ _ "quick" "iris" "data/iris.csv"
      "a6c1b1b5a0c7f3e7e4b2e1c8d4a3f7b0" (by decide)).1 ['a'] rfl (by decide),
   (verify_dataset_registered_cases _ _ "quick" "iris" "data/iris.csv"
      "a6c1b1b5a0c7f3e7e4b2e1c8d4a3f7b0" (by decide)).2.2.1 ['a'] 0 'b' rfl
      (by decide) (by decide),
   (verify_dataset_registered_cases _ _ "quick" "iris" "data/iris.csv"
      "a6c1b1b5a0c7f3e7e4b2e1c8d4a3f7b0" (by decide)).2.2.2 rfl⟩

/-- C5: in quick mode, `download_external_dataset` truncates the fetched
CSV to its first 101 lines. When the file has at least 101 lines (a header
plus at least 100 data rows), the truncated content consists of exactly
the first 101 lines of the original — the header plus the first 100 data
rows; when it has at most 101 lines (fewer than 100 data rows, in
particular), the content is returned byte-for-byte unchanged. -/
theorem quickTruncate_lines (c : FetchData.Content) :
    (101 ≤ (c.splitOn '\n').length →
      (FetchData.quickTruncate c).splitOn '\n' = (c.splitOn '\n').take 101 ∧
      ((FetchData.quickTruncate c).splitOn '\n').length = 101) ∧
    ((c.splitOn '\n').length ≤ 101 → FetchData.quickTruncate c = c) := by
  constructor
  · intro h
    have hsep : ∀ l ∈ (c.splitOn '\n').take 101, '\n' ∉ l := fun l hl =>
      splitOn_sep_not_mem c l (List.mem_of_mem_take hl)
    have hlen : ((c.splitOn '\n').take 101).length = 101 := by
      rw [List.length_take]; omega
    have hne : (c.splitOn '\n').take 101 ≠ [] := by
      intro hcon
      rw [hcon] at hlen
      simp at hlen
    have key : (FetchData.quickTruncate c).splitOn '\n'
        = (c.splitOn '\n').take 101 :=
      List.splitOn_intercalate _ '\n' hsep hne
    exact ⟨key, by rw [key, hlen]⟩
  · intro h
    unfold FetchData.quickTruncate
    rw [List.take_of_length_le h, List.intercalate_splitOn]

/-- C5 witness: a 102-line file truncates to exactly 101 lines, and a
one-line file passes through unchanged. -/
theorem quickTruncate_lines_witness :
    ((FetchData.quickTruncate (List.replicate 101 '\n')).splitOn '\n').length
      = 101 ∧
    FetchData.quickTruncate ['a'] = ['a'] :=
  ⟨((quickTruncate_lines (List.replicate 101 '\n')).1 (by decide)).2,
   (quickTruncate_lines ['a']).2 (by decide)⟩

/-- C10: every dataset registered in `DATASET_HASHES` has a table holding a
"full" entry, so `get_expected_hash` is `some` for every mode string —
when the mode is neither "quick" nor "full" it silently falls back to the
full-mode hash — and consequently `verify_dataset` never answers `unknown`
for a registered dataset. -/
theorem get_expected_hash_registered_isSome
    (mode dataset : String) (tbl : List (String × String))
    (hreg : FetchData.lookupDataset dataset = some tbl)
    (H : FetchData.Content → String) (fs : String → Option FetchData.Content)
    (filepath : String) :
    (∃ h, FetchData.get_expected_hash mode dataset = some h) ∧
    (mode ≠ "quick" → mode ≠ "full" →
      FetchData.get_expected_hash mode dataset = FetchData.dictGet tbl "full") ∧
    (FetchData.verify_dataset H fs mode dataset filepath).status ≠ .unknown := by
  have hmem : ∃ p ∈ FetchData.DATASET_HASHES, p.snd = tbl := by
    unfold FetchData.lookupDataset at hreg
    rcases Option.map_eq_some'.mp hreg with ⟨q, hq, hsnd⟩
    exact ⟨q, List.mem_of_find?_eq_some hq, hsnd⟩
  have hfull : ∃ hf, FetchData.dictGet tbl "full" = some hf := by
    rcases hmem with ⟨p, hp, hsnd⟩
    subst hsnd
    fin_cases hp <;> exact ⟨_, rfl⟩
  rcases hfull with ⟨hf, hfull⟩
  have hget : ∃ h, FetchData.get_expected_hash mode dataset = some h := by
    unfold FetchData.get_expected_hash
    rw [hreg]
    cases hq : FetchData.dictGet tbl mode with
    | none => exact ⟨hf, by simp [Option.orElse, hq, hfull]⟩
    | some v => exact ⟨v, by simp [Option.orElse, hq]⟩
  refine ⟨hget, ?_, ?_⟩
  · intro hq hfm
    have hnone : FetchData.dictGet tbl mode = none := by
      rcases hmem with ⟨p, hp, hsnd⟩
      subst hsnd
      have hq' : ("quick" == mode) = false := beq_eq_false_iff_ne.mpr (Ne.symm hq)
      have hf' : ("full" == mode) = false := beq_eq_false_iff_ne.mpr (Ne.symm hfm)
      fin_cases hp <;> simp [FetchData.dictGet, List.find?, hq', hf']
    unfold FetchData.get_expected_hash
    rw [hreg]
    simp [hnone, Option.orElse]
  · rcases hget with ⟨h, hget⟩
    unfold FetchData.verify_dataset
    rw [hget]
    cases FetchData.compute_file_hash H fs filepath with
    | none => simp
    | some actual =>
      by_cases hac : actual = h <;> simp [hac]

/-- C10 witness: under the unrecognized mode string "weird", the registered
dataset "mnist" still resolves to its full-mode hash and verifies as
`missing` (not `unknown`) on an empty filesystem. -/
theorem get_expected_hash_registered_isSome_witness :
    (FetchData.get_expected_hash "weird" "mnist"
      = FetchData.dictGet
          [("quick", "f7b8c3e2a1d5c4b9e6f2a8d1c3b5e7f9"),
           ("full", "8a7f6e5d4c3b2a1f0e9d8c7b6a5f4e3d")] "full") ∧
    (FetchData.verify_dataset (fun _ => "") (fun _ => none)
      "weird" "mnist" "data/mnist.csv").status ≠ .unknown :=
  ⟨(get_expected_hash_registered_isSome "weird" "mnist"
      [("quick", "f7b8c3e2a1d5c4b9e6f2a8d1c3b5e7f9"),
       ("full", "8a7f6e5d4c3b2a1f0e9d8c7b6a5f4e3d")] (by decide)
      (fun _ => "") (fun _ => none) "data/mnist.csv").2.1
        (by decide) (by decide),
   (get_expected_hash_registered_isSome "weird" "mnist"
      [("quick", "f7b8c3e2a1d5c4b9e6f2a8d1c3b5e7f9"),
       ("full", "8a7f6e5d4c3b2a1f0e9d8c7b6a5f4e3d")] (by decide)
      (fun _ => "") (fun _ => none) "data/mnist.csv").2.2⟩

/-- C4: from either recognized starting mode, `toggle_mode()` with no
argument applied twice returns the mode to its original value; and when
the current mode is "quick", `toggle_mode("quick")` returns "quick",
leaves the mode at "quick", and leaves the value of every observable
setting (the `get_setting` view, for every key and default) unchanged. -/
theorem toggle_mode_involution_idempotent (s : NotebookToggle.NBState)
    (h : NotebookToggle.get_mode s = "quick" ∨
      NotebookToggle.get_mode s = "full") :
    (∃ m1 s1 m2 s2,
      NotebookToggle.toggle_mode none s = .ok (m1, s1) ∧
      NotebookToggle.toggle_mode none s1 = .ok (m2, s2) ∧
      m2 = NotebookToggle.get_mode s ∧
      NotebookToggle.get_mode s2 = NotebookToggle.get_mode s) ∧
    (NotebookToggle.get_mode s = "quick" →
      ∃ s3, NotebookToggle.toggle_mode (some "quick") s = .ok ("quick", s3) ∧
        NotebookToggle.get_mode s3 = "quick" ∧
        ∀ key dflt, NotebookToggle.get_setting key dflt s3
          = NotebookToggle.get_setting key dflt s) := by
  constructor
  · rcases h with h | h
    · refine ⟨"full", ⟨some "full", []⟩, "quick", ⟨some "quick", []⟩,
        ?_, ?_, h.symm, ?_⟩
      · unfold NotebookToggle.toggle_mode
        rw [h]
        rfl
      · rfl
      · rw [h]
        rfl
    · refine ⟨"quick", ⟨some "quick", []⟩, "full", ⟨some "full", []⟩,
        ?_, ?_, h.symm, ?_⟩
      · unfold NotebookToggle.toggle_mode
        rw [h]
        rfl
      · rfl
      · rw [h]
        rfl
  · intro h2
    refine ⟨⟨some "quick", []⟩, rfl, rfl, ?_⟩
    intro key dflt
    unfold NotebookToggle.get_setting
    rw [h2]
    rfl

/-- C4 witness: starting from the default state (mode "quick", one cached
cell), the double toggle and the idempotent re-set both behave as claimed. -/
theorem toggle_mode_involution_idempotent_witness :
    (∃ m1 s1 m2 s2,
      NotebookToggle.toggle_mode none ⟨none, [7]⟩ = .ok (m1, s1) ∧
      NotebookToggle.toggle_mode none s1 = .ok (m2, s2) ∧
      m2 = NotebookToggle.get_mode ⟨none, [7]⟩ ∧
      NotebookToggle.get_mode s2 = NotebookToggle.get_mode ⟨none, [7]⟩) ∧
    (NotebookToggle.get_mode ⟨none, [7]⟩ = "quick" →
      ∃ s3, NotebookToggle.toggle_mode (some "quick") ⟨none, [7]⟩
          = .ok ("quick", s3) ∧
        NotebookToggle.get_mode s3 = "quick" ∧
        ∀ key dflt, NotebookToggle.get_setting key dflt s3
          = NotebookToggle.get_setting key dflt ⟨none, [7]⟩) :=
  toggle_mode_involution_idempotent ⟨none, [7]⟩ (Or.inl (by decide))

/-- C6: when a cached file already exists at the dataset's local path and
its hash equals the expected hash for the current (global) mode,
`download_external_dataset` answers status "cached", performs no network
fetch, prints no warning, and returns the filesystem untouched. -/
theorem download_external_dataset_cached
    (H : FetchData.Content → String) (fetch : String → FetchData.Content)
    (fs : String → Option FetchData.Content) (gmode name url mode : String)
    (e : String) (c : FetchData.Content)
    (hfs : fs ("data/" ++ name ++ ".csv") = some c)
    (hexp : FetchData.get_expected_hash gmode name = some e)
    (hH : H c = e) :
    (FetchData.download_external_dataset H fetch fs gmode name url
        mode).result.status = "cached" ∧
    (FetchData.download_external_dataset H fetch fs gmode name url
        mode).fetched = false ∧
    (FetchData.download_external_dataset H fetch fs gmode name url
        mode).warned = false ∧
    (FetchData.download_external_dataset H fetch fs gmode name url
        mode).fs = fs := by
  simp [FetchData.download_external_dataset, hfs, hexp, hH]

/-- C6 witness: with iris cached under its registered quick-mode hash, the
call reports "cached", fetches nothing, and leaves the filesystem alone. -/
theorem download_external_dataset_cached_witness :
    (FetchData.download_external_dataset
      (fun _ => "a6c1b1b5a0c7f3e7e4b2e1c8d4a3f7b0") (fun _ => [])
      (fun _ => some ['a']) "quick" "iris" "http://x" "quick").result.status
        = "cached" ∧
    (FetchData.download_external_dataset
      (fun _ => "a6c1b1b5a0c7f3e7e4b2e1c8d4a3f7b0") (fun _ => [])
      (fun _ => some ['a']) "quick" "iris" "http://x" "quick").fetched
        = false ∧
    (FetchData.download_external_dataset
      (fun _ => "a6c1b1b5a0c7f3e7e4b2e1c8d4a3f7b0") (fun _ => [])
      (fun _ => some ['a']) "quick" "iris" "http://x" "quick").warned
        = false ∧
    (FetchData.download_external_dataset
      (fun _ => "a6c1b1b5a0c7f3e7e4b2e1c8d4a3f7b0") (fun _ => [])
      (fun _ => some ['a']) "quick" "iris" "http://x" "quick").fs
        = (fun _ => some ['a']) :=
  download_external_dataset_cached
    (fun _ => "a6c1b1b5a0c7f3e7e4b2e1c8d4a3f7b0") (fun _ => [])
    (fun _ => some ['a']) "quick" "iris" "http://x" "quick"
    "a6c1b1b5a0c7f3e7e4b2e1c8d4a3f7b0" ['a'] rfl (by decide) rfl

/-- C7: when no valid cached copy short-circuits the call and the hash of
the (post-truncation) fetched content differs from a configured non-empty
expected hash, `download_external_dataset` prints the mismatch warning yet
still succeeds: the payload is written to the dataset's path and the
result is status "downloaded" carrying the actual hash. -/
theorem download_external_dataset_mismatch_warns
    (H : FetchData.Content → String) (fetch : String → FetchData.Content)
    (fs : String → Option FetchData.Content) (gmode name url mode : String)
    (e : String)
    (hexp : FetchData.get_expected_hash gmode name = some e)
    (hne : e ≠ "")
    (hmiss : ∀ c, fs ("data/" ++ name ++ ".csv") = some c → H c ≠ e)
    (hdiff : e ≠ H (if mode = "quick"
      then FetchData.quickTruncate (fetch url) else fetch url)) :
    (FetchData.download_external_dataset H fetch fs gmode name url
        mode).result.status = "downloaded" ∧
    (FetchData.download_external_dataset H fetch fs gmode name url
        mode).result.hash = some (H (if mode = "quick"
          then FetchData.quickTruncate (fetch url) else fetch url)) ∧
    (FetchData.download_external_dataset H fetch fs gmode name url
        mode).fs ("data/" ++ name ++ ".csv") = some (if mode = "quick"
          then FetchData.quickTruncate (fetch url) else fetch url) ∧
    (FetchData.download_external_dataset H fetch fs gmode name url
        mode).warned = true ∧
    (FetchData.download_external_dataset H fetch fs gmode name url
        mode).fetched = true := by
  cases hc : fs ("data/" ++ name ++ ".csv") with
  | none =>
    simp [FetchData.download_external_dataset, hc, hexp,
      FetchData.setFile, hne, hdiff]
  | some c =>
    have hb : (some (H c) == some e) = false :=
      beq_eq_false_iff_ne.mpr (fun hcon => hmiss c hc (Option.some.inj hcon))
    simp [FetchData.download_external_dataset, hc, hexp, hb,
      FetchData.setFile, hne, hdiff]

/-- C7 witness: fetching titanic in full mode onto an empty filesystem with
a hash that disagrees with the registered one still downloads and saves. -/
theorem download_external_dataset_mismatch_warns_witness :
    (FetchData.download_external_dataset (fun _ => "zz") (fun _ => ['h'])
      (fun _ => none) "quick" "titanic" "http://x" "full").result.status
        = "downloaded" ∧
    (FetchData.download_external_dataset (fun _ => "zz") (fun _ => ['h'])
      (fun _ => none) "quick" "titanic" "http://x" "full").result.hash
        = some "zz" ∧
    (FetchData.download_external_dataset (fun _ => "zz") (fun _ => ['h'])
      (fun _ => none) "quick" "titanic" "http://x" "full").warned = true ∧
    (FetchData.download_external_dataset (fun _ => "zz") (fun _ => ['h'])
      (fun _ => none) "quick" "titanic" "http://x" "full").fetched = true :=
  have h := download_external_dataset_mismatch_warns (fun _ => "zz")
    (fun _ => ['h']) (fun _ => none) "quick" "titanic" "http://x" "full"
    "c5d4e3f2a1b0c9d8e7f6a5b4c3d2e1f0" (by decide) (by decide)
    (fun c hc => Option.noConfusion hc) (by decide)
  ⟨h.1, h.2.1, h.2.2.2.1, h.2.2.2.2⟩

/-- C8 counterexample: the claim asserts that `set_mode` rejects any string
that is not "quick"/"full" with an invalid-argument failure, citing both
`notebook_toggle.set_mode` and `fetch_data.set_mode`; but
`fetch_data.set_mode` has no validation at all — called with "bogus" it
completes normally and stores "bogus" as the global mode. -/
theorem set_mode_fetch_data_accepts_invalid :
    FetchData.set_mode "bogus" ⟨"quick", none⟩
      = ⟨"bogus", some "bogus"⟩ ∧
    ("bogus" : String) ≠ "quick" ∧ ("bogus" : String) ≠ "full" ∧
    pyLower "bogus" = "bogus" := by decide

/-- C8 amended: `notebook_toggle.set_mode` raises the invalid-argument
failure before performing any mutation (so mode and cell cache are
untouched on error), while `fetch_data.set_mode` performs no validation
and unconditionally stores the lowercased input. -/
theorem set_mode_validation_split (m : String) (s : NotebookToggle.NBState)
    (st : FetchData.FDState)
    (h1 : pyLower m ≠ "quick") (h2 : pyLower m ≠ "full") :
    NotebookToggle.set_mode m s
      = .error ("Invalid mode: " ++ m ++ ". Must be quick or full") ∧
    FetchData.set_mode m st = ⟨pyLower m, some (pyLower m)⟩ := by
  constructor
  · simp [NotebookToggle.set_mode, h1, h2]
  · rfl

/-- C8 amended witness: "bogus" is rejected by the notebook toggle and
silently stored by the fetch script. -/
theorem set_mode_validation_split_witness :
    NotebookToggle.set_mode "bogus" ⟨none, [7]⟩
      = .error ("Invalid mode: " ++ "bogus" ++ ". Must be quick or full") ∧
    FetchData.set_mode "bogus" ⟨"quick", none⟩
      = ⟨pyLower "bogus", some (pyLower "bogus")⟩ :=
  set_mode_validation_split "bogus" ⟨none, [7]⟩ ⟨"quick", none⟩
    (by decide) (by decide)

/-- C9: `generate_synthetic_dataset` is deterministic — two invocations
with the same generator collaborator, hash function, name, mode and seed
(the wall-clock readings may differ) produce identical payloads `X`, `y`
and identical hash strings. -/
theorem generate_synthetic_dataset_deterministic
    (g : FetchData.GenArgs → List (List Int) × List Int)
    (H : List (List Int) → String) (name mode : String) (random_state : Int)
    (t1 t2 : Int) (r1 r2 : FetchData.SynResult)
    (h1 : FetchData.generate_synthetic_dataset g H name mode random_state t1
      = .ok r1)
    (h2 : FetchData.generate_synthetic_dataset g H name mode random_state t2
      = .ok r2) :
    r1.X = r2.X ∧ r1.y = r2.y ∧ r1.hash = r2.hash := by
  unfold FetchData.generate_synthetic_dataset at h1 h2
  cases ha : FetchData.synth_args name mode random_state with
  | none =>
    rw [ha] at h1
    exact absurd h1 (by simp)
  | some a =>
    rw [ha] at h1 h2
    simp only [Except.ok.injEq] at h1 h2
    rw [← h1, ← h2]
    exact ⟨rfl, rfl, rfl⟩

/-- C9 witness: two full runs at ("blobs", "quick", 42) under different
clock readings agree on payload and hash. -/
theorem generate_synthetic_dataset_deterministic_witness :
    (FetchData.SynResult.mk "blobs" [[100]] [0] "quick" 42 "h" 0).X
      = (FetchData.SynResult.mk "blobs" [[100]] [0] "quick" 42 "h" 5).X ∧
    (FetchData.SynResult.mk "blobs" [[100]] [0] "quick" 42 "h" 0).y
      = (FetchData.SynResult.mk "blobs" [[100]] [0] "quick" 42 "h" 5).y ∧
    (FetchData.SynResult.mk "blobs" [[100]] [0] "quick" 42 "h" 0).hash
      = (FetchData.SynResult.mk "blobs" [[100]] [0] "quick" 42 "h" 5).hash :=
  generate_synthetic_dataset_deterministic
    (fun a => ([[Int.ofNat a.n_samples]], [0])) (fun _ => "h")
    "blobs" "quick" 42 0 5
    ⟨"blobs", [[100]], [0], "quick", 42, "h", 0⟩
    ⟨"blobs", [[100]], [0], "quick", 42, "h", 5⟩ rfl rfl
